import Mathlib

/-!
Verification of the dojo_allocator core against its specification.

Each definition shallowly embeds one function of the Python source,
keeping the source's names and branch structure.  Monetary values and
scores are modelled as rationals; `dict` state is modelled as
association lists; database-backed collections are modelled as lists.
-/

namespace DojoAllocator

/-! ## Cycle manager (`src/core/cycle_manager.py`) -/

/-- Cycle phases (`LOAD → ACTIVE → SCALE_OUT → FORCE_CLOSE`). -/
inductive Phase where
  | LOAD
  | ACTIVE
  | SCALE_OUT
  | FORCE_CLOSE
  deriving DecidableEq, Repr

/-- `CycleManager.get_current_cycle_day`:
`days_elapsed = (now - cycle.start_date).days`, and the cycle day is
`min(30, max(1, days_elapsed + 1))`. -/
def get_current_cycle_day (days_elapsed : Int) : Int :=
  min 30 (max 1 (days_elapsed + 1))

/-- The branch structure of `CycleManager.get_cycle_phase` as a function of
the computed `cycle_day`: `≤7` LOAD, `≤60` ACTIVE, `≤75` SCALE_OUT,
otherwise FORCE_CLOSE. -/
def phase_of_cycle_day (cycle_day : Int) : Phase :=
  if cycle_day ≤ 7 then .LOAD
  else if cycle_day ≤ 60 then .ACTIVE
  else if cycle_day ≤ 75 then .SCALE_OUT
  else .FORCE_CLOSE

/-- `CycleManager.get_cycle_phase`: computes the cycle day, then applies the
day-to-phase table. -/
def get_cycle_phase (days_elapsed : Int) : Phase :=
  phase_of_cycle_day (get_current_cycle_day days_elapsed)

/-! ## Signal scorer (`src/core/signal_scorer.py`) -/

/-- `SignalScorer.TIER_THRESHOLDS` together with `SignalScorer.assign_tier`:
the thresholds dict is iterated in insertion order (S, A, B, C, REJECT) and
the first tier whose threshold is met is returned; the fallback is REJECT. -/
def assign_tier (total_score : ℚ) : String :=
  if total_score ≥ 80/100 then "S"
  else if total_score ≥ 65/100 then "A"
  else if total_score ≥ 50/100 then "B"
  else if total_score ≥ 35/100 then "C"
  else if total_score ≥ 0 then "REJECT"
  else "REJECT"

/-- `SignalScorer._score_consensus`: branches on `len(similar_signals)`:
`≥4 → 1.0`, `=3 → 0.8`, `=2 → 0.6`, `=1 → 0.3`, else `0.0`. -/
def score_consensus (count : ℕ) : ℚ :=
  if count ≥ 4 then 1
  else if count = 3 then 8/10
  else if count = 2 then 6/10
  else if count = 1 then 3/10
  else 0

/-! ## Signal quality filter (`src/core/signal_quality_filter.py`) -/

/-- `SignalQualityFilter.calculate_consensus_score`: an empty
`similar_signals` list returns 0.2 immediately; otherwise the cluster count
is `len(similar_signals)` and the score is `≥5 → 1.0`, `≥3 → 0.8`,
`≥2 → 0.5`, else `0.2`. -/
def calculate_consensus_score (similar_count : ℕ) : ℚ :=
  if similar_count = 0 then 2/10
  else if similar_count ≥ 5 then 1
  else if similar_count ≥ 3 then 8/10
  else if similar_count ≥ 2 then 5/10
  else 2/10

/-- The consensus factor actually persisted by the scoring task
(`score_all_signals` in `src/scheduler/tasks.py`): the scorer's
`_score_consensus` output is overridden by
`SignalQualityFilter.calculate_consensus_score` before the total score is
computed, so the effective consensus factor is the quality-filter value. -/
def effective_consensus_score (active_same_symbol_direction : ℕ) : ℚ :=
  calculate_consensus_score active_same_symbol_direction

/-- The fields of the `signal_data` dict consulted by
`SignalQualityFilter.apply_quality_filters`.  Optional fields model
`dict.get`; a filing date is represented by its age in days
(`(utcnow - filing_date).days`). -/
structure SignalData where
  source : String
  symbol : String
  filer_name : String
  price : Option ℚ
  transaction_value : Option ℚ
  filing_days_old : Option ℤ
  transaction_code : Option String
  deriving DecidableEq, Repr

/-- Filter 1 of `apply_quality_filters`: the price check fires only when
`signal_data.get('price')` is truthy (present and nonzero) and below 5.00. -/
def price_rejects (price : Option ℚ) : Bool :=
  match price with
  | none => false
  | some p => if p = 0 then false else decide (p < 5)

/-- Filter 2 of `apply_quality_filters`: the transaction-value check fires
only when `signal_data.get('transaction_value')` is truthy (present and
nonzero) and below 10,000.00. -/
def transaction_value_rejects (value : Option ℚ) : Bool :=
  match value with
  | none => false
  | some v => if v = 0 then false else decide (v < 10000)

/-- Filter 3: congressional signals with a filing date older than 30 days. -/
def staleness_rejects (source : String) (filing_days_old : Option ℤ) : Bool :=
  if source = "congressional" then
    match filing_days_old with
    | none => false
    | some d => decide (d > 30)
  else false

/-- Filter 4a: Form 4 signals whose transaction code is not `'P'`
(a missing code also differs from `'P'`). -/
def form4_not_purchase (source : String) (code : Option String) : Bool :=
  source = "form4" && !(code == some "P")

/-- Filter 4b: Form 4 signals whose transaction value is falsy
(`signal_data.get('transaction_value', 0)` missing or zero). -/
def form4_no_value (source : String) (value : Option ℚ) : Bool :=
  source = "form4" && (value == none || value == some 0)

/-- Python's `str.strip()`: drop leading and trailing whitespace. -/
def strip (s : String) : String :=
  ⟨((s.data.dropWhile Char.isWhitespace).reverse.dropWhile Char.isWhitespace).reverse⟩

/-- Filter 5: symbol empty after strip, or longer than 10 characters. -/
def symbol_invalid (symbol : String) : Bool :=
  strip symbol = "" || (strip symbol).length > 10

/-- Filter 6: filer name empty after strip. -/
def filer_missing (filer_name : String) : Bool :=
  strip filer_name = ""

/-- `SignalQualityFilter.apply_quality_filters`: the seven checks in source
order, returning `(passes_filter, rejection_reason)`.  The market-data step
runs only when the provider initialised (`market_data_enabled`); its verdict
is an input since it performs network I/O. -/
def apply_quality_filters (market_data_enabled market_passes : Bool)
    (s : SignalData) : Bool × Option String :=
  if price_rejects s.price then (false, some "PRICE_TOO_LOW")
  else if transaction_value_rejects s.transaction_value then
    (false, some "TRANSACTION_TOO_SMALL")
  else if staleness_rejects s.source s.filing_days_old then
    (false, some "STALE_SIGNAL")
  else if form4_not_purchase s.source s.transaction_code then
    (false, some "NOT_PURCHASE")
  else if form4_no_value s.source s.transaction_value then
    (false, some "NO_TRANSACTION_VALUE")
  else if symbol_invalid s.symbol then (false, some "INVALID_SYMBOL")
  else if filer_missing s.filer_name then (false, some "NO_FILER_NAME")
  else if market_data_enabled && !market_passes then (false, some "MARKET_DATA")
  else (true, none)

/-! ## Philosophy engine (`src/core/philosophy_engine.py`) -/

/-- The allocation-power update of `PhilosophyEngine._record_violation`:
`new_power = max(0.30, current_power * (1.0 + penalty))`. -/
def record_violation_power (current_power penalty : ℚ) : ℚ :=
  max (30/100) (current_power * (1 + penalty))

/-- The specification's clamp: `clamp(x, lo, hi) = min(hi, max(lo, x))`;
stated for comparison with `record_violation_power`. -/
def clamp (x lo hi : ℚ) : ℚ :=
  min hi (max lo x)

/-- `PhilosophyEngine.restore_allocation_power`: full restore to 1.0 after
`target_rounds` clean rounds, otherwise a partial step
`min(1.0, power + (1.0 - power) * (clean_rounds / target_rounds * 0.1))`,
and no change when there are no clean rounds. -/
def restore_allocation_power (current_power : ℚ)
    (clean_rounds target_rounds : ℕ) : ℚ :=
  if clean_rounds ≥ target_rounds then 1
  else if clean_rounds > 0 then
    min 1 (current_power +
      (1 - current_power) * ((clean_rounds : ℚ) / (target_rounds : ℚ) * (1/10)))
  else current_power

/-! ## Paper broker (`src/execution/paper_broker.py`) -/

inductive OrderSide where
  | BUY
  | SELL
  deriving DecidableEq, Repr

inductive OrderStatus where
  | FILLED
  | REJECTED
  deriving DecidableEq, Repr

/-- `OrderRequest` (`src/execution/base_broker.py`): the fields consumed by
the paper broker's market-order path. -/
structure OrderRequest where
  symbol : String
  side : OrderSide
  quantity : ℤ
  deriving DecidableEq, Repr

/-- `OrderResponse` (`src/execution/base_broker.py`), restricted to its
deterministic fields (order ids are fresh UUIDs, timestamps are wall-clock). -/
structure OrderResponse where
  status : OrderStatus
  filled_qty : ℤ
  filled_avg_price : Option ℚ
  commission : Option ℚ
  error_message : Option String
  deriving DecidableEq, Repr

/-- `Position` (`src/execution/base_broker.py`): broker-side position
snapshot. -/
structure BrokerPosition where
  symbol : String
  quantity : ℤ
  avg_entry_price : ℚ
  current_price : ℚ
  market_value : ℚ
  unrealized_pnl : ℚ
  deriving DecidableEq, Repr

/-- The mutable state of a `PaperBroker`: `self.positions` is a dict keyed by
symbol (modelled as a list whose symbols are unique), `self.orders` records
filled orders. -/
structure BrokerState where
  starting_cash : ℚ
  cash : ℚ
  positions : List BrokerPosition
  order_log : List OrderResponse
  connected : Bool
  deriving DecidableEq, Repr

/-- `PaperBroker.get_position`: `self.positions.get(symbol)`. -/
def get_position (s : BrokerState) (symbol : String) : Option BrokerPosition :=
  s.positions.find? (fun p => decide (p.symbol = symbol))

/-- BUY fill price: ask plus positive slippage
(`base_price * slippage_bps / 10000`) when slippage simulation is on. -/
def buy_fill_price (ask : ℚ) (simulate_slippage : Bool) (slippage_bps : ℚ) : ℚ :=
  if simulate_slippage then ask + ask * slippage_bps / 10000 else ask

/-- SELL fill price: bid minus positive slippage when slippage simulation is
on. -/
def sell_fill_price (bid : ℚ) (simulate_slippage : Bool) (slippage_bps : ℚ) : ℚ :=
  if simulate_slippage then bid - bid * slippage_bps / 10000 else bid

/-- `PaperBroker._add_to_position`: weighted-average cost basis on addition,
or a fresh position when the symbol is absent. -/
def add_to_position (positions : List BrokerPosition) (symbol : String)
    (quantity : ℤ) (price : ℚ) : List BrokerPosition :=
  match positions.find? (fun p => decide (p.symbol = symbol)) with
  | some pos =>
      let new_qty := pos.quantity + quantity
      let new_avg := (pos.avg_entry_price * pos.quantity + price * quantity) / new_qty
      positions.map (fun p =>
        if p.symbol = symbol then
          { p with quantity := new_qty, avg_entry_price := new_avg,
                   market_value := price * new_qty, current_price := price,
                   unrealized_pnl := (price - new_avg) * new_qty }
        else p)
  | none =>
      positions ++ [{ symbol := symbol, quantity := quantity,
                      avg_entry_price := price, current_price := price,
                      market_value := price * quantity, unrealized_pnl := 0 }]

/-- `PaperBroker._remove_from_position`: decrement the quantity, refresh the
derived fields, and delete the symbol when the quantity reaches zero. -/
def remove_from_position (positions : List BrokerPosition) (symbol : String)
    (quantity : ℤ) : List BrokerPosition :=
  positions.filterMap (fun p =>
    if p.symbol = symbol then
      let q := p.quantity - quantity
      if q = 0 then none
      else some { p with quantity := q, market_value := p.current_price * q,
                         unrealized_pnl := (p.current_price - p.avg_entry_price) * q }
    else some p)

/-- A rejection response as built in `PaperBroker.submit_order`. -/
def rejected_response (msg : String) : OrderResponse :=
  { status := .REJECTED, filled_qty := 0, filled_avg_price := none,
    commission := none, error_message := some msg }

/-- `PaperBroker.submit_order`.  The quote (`bid`, `ask`) and the slippage
configuration are inputs: `get_quote` performs network I/O and the
configuration is read from YAML at startup.  Every order fills immediately at
market or is rejected; rejections return before any state is touched. -/
def submit_order (s : BrokerState) (order : OrderRequest) (bid ask : ℚ)
    (simulate_slippage : Bool) (slippage_bps : ℚ) : OrderResponse × BrokerState :=
  if ¬ s.connected then (rejected_response "Broker not connected", s)
  else
    let fill_price : ℚ :=
      match order.side with
      | .BUY => buy_fill_price ask simulate_slippage slippage_bps
      | .SELL => sell_fill_price bid simulate_slippage slippage_bps
    let total_value : ℚ := fill_price * order.quantity
    let commission : ℚ := 1
    match order.side with
    | .BUY =>
        let needed_cash := total_value + commission
        if needed_cash > s.cash then (rejected_response "Insufficient cash", s)
        else
          let filled : OrderResponse :=
            { status := .FILLED, filled_qty := order.quantity,
              filled_avg_price := some fill_price, commission := some commission,
              error_message := none }
          (filled,
           { s with cash := s.cash - needed_cash,
                    positions := add_to_position s.positions order.symbol order.quantity fill_price,
                    order_log := s.order_log ++ [filled] })
    | .SELL =>
        match s.positions.find? (fun p => decide (p.symbol = order.symbol)) with
        | none => (rejected_response "Insufficient shares to sell", s)
        | some pos =>
            if pos.quantity < order.quantity then
              (rejected_response "Insufficient shares to sell", s)
            else
              let filled : OrderResponse :=
                { status := .FILLED, filled_qty := order.quantity,
                  filled_avg_price := some fill_price, commission := some commission,
                  error_message := none }
              (filled,
               { s with cash := s.cash + (total_value - commission),
                        positions := remove_from_position s.positions order.symbol order.quantity,
                        order_log := s.order_log ++ [filled] })

/-! ## Review-cycle manager (`src/core/review_cycle_manager.py`) -/

/-- The fields of a `Position` row consulted by the review-cycle manager. -/
structure RPosition where
  position_id : String
  symbol : String
  direction : String
  conviction_tier : String
  shares : ℤ
  entry_price : ℚ
  deriving DecidableEq, Repr

/-- The fields of a `Signal` row consulted by the review-cycle manager.
`persisted_cycles` is nullable in the schema. -/
structure RSignal where
  signal_id : String
  symbol : String
  direction : String
  status : String
  conviction_tier : String
  persisted_cycles : Option ℕ
  deriving DecidableEq, Repr

/-- `ReviewCycleManager.TIER_VALUES` looked up with `.get(tier, 0)`. -/
def tier_value (tier : String) : ℤ :=
  if tier = "S" then 4
  else if tier = "A" then 3
  else if tier = "B" then 2
  else if tier = "C" then 1
  else 0

/-- The escalation-candidate record built by
`ReviewCycleManager._check_tier_escalation`. -/
structure EscalationInfo where
  position_id : String
  symbol : String
  direction : String
  current_tier : String
  new_tier : String
  tier_difference : ℤ
  persisted_cycles : ℕ
  signal_id : String
  deriving DecidableEq, Repr

/-- `ReviewCycleManager._check_tier_escalation`: requires the signal tier to
be at least 2 above the position tier AND the signal's `persisted_cycles`
(null read as 0) to be at least 2; otherwise no candidate. -/
def check_tier_escalation (position : RPosition) (signal : RSignal) :
    Option EscalationInfo :=
  let position_tier_value := tier_value position.conviction_tier
  let signal_tier_value := tier_value signal.conviction_tier
  let tier_difference := signal_tier_value - position_tier_value
  if tier_difference < 2 then none
  else
    let persisted_cycles := signal.persisted_cycles.getD 0
    if persisted_cycles < 2 then none
    else some
      { position_id := position.position_id, symbol := position.symbol,
        direction := position.direction,
        current_tier := position.conviction_tier,
        new_tier := signal.conviction_tier,
        tier_difference := tier_difference,
        persisted_cycles := persisted_cycles,
        signal_id := signal.signal_id }

/-- `ReviewCycleManager._update_signal_persistence`: increment
`persisted_cycles` (null read as 0) for every ACTIVE signal. -/
def update_signal_persistence (signals : List RSignal) : List RSignal :=
  signals.map (fun g =>
    if g.status = "ACTIVE" then
      { g with persisted_cycles := some (g.persisted_cycles.getD 0 + 1) }
    else g)

/-- `ReviewCycleManager._find_tier_escalations`: for each open position,
fetch the most recent ACTIVE signal on the same (symbol, direction) — the
database query is abstracted as `latest_signal` — and keep the positions
that pass `_check_tier_escalation`.  The close-and-reopen step
(`_execute_confirmed_escalations`) runs on exactly this candidate list. -/
def find_tier_escalations (open_positions : List RPosition)
    (latest_signal : RPosition → Option RSignal) : List EscalationInfo :=
  open_positions.filterMap (fun pos =>
    (latest_signal pos).bind (check_tier_escalation pos))

/-! ## Cycle settlement (`src/core/cycle_settlement.py`) -/

/-- The fields of a `Position` row consulted by settlement. -/
structure SPosition where
  position_id : String
  status : String
  shares : ℤ
  entry_price : ℚ
  realized_pnl : Option ℚ
  deriving DecidableEq, Repr

/-- The fields of a `Cycle` row consulted and mutated by settlement:
`days_elapsed` stands for `(utcnow - start_date).days`, and the performance
columns are those written by `CycleManager.update_cycle_performance`. -/
structure SCycle where
  cycle_id : String
  status : String
  days_elapsed : ℤ
  total_invested : ℚ
  total_pnl : ℚ
  total_return : ℚ
  win_rate : ℚ
  deriving DecidableEq, Repr

/-- The state touched by `CycleSettlement.settle_cycle`: the cycle being
settled, its positions, and the cycle table (step 7 appends a new cycle). -/
structure SettlementWorld where
  cycle : SCycle
  positions : List SPosition
  other_cycles : List SCycle
  deriving DecidableEq, Repr

/-- `CycleSettlement.validate_cycle`: the three checks in source order —
minimum duration (30 days), minimum positions (5), and ACTIVE status. -/
def validate_cycle (cycle_day : ℤ) (position_count : ℕ) (status : String) : Bool :=
  if cycle_day < 30 then false
  else if position_count < 5 then false
  else if status ≠ "ACTIVE" then false
  else true

/-- Modelled from the spec: the force-close step of settlement delegates to
`OrderManager.emergency_liquidate` (`src/execution/order_manager.py` is not in
the source tree); per §4.5/§4.7 with ratio 1.0 every OPEN position of the
cycle is closed in full. -/
def force_close_all_positions (positions : List SPosition) : List SPosition :=
  positions.map (fun p => if p.status = "OPEN" then { p with status := "CLOSED" } else p)

/-- `CycleSettlement.settle_cycle`: validate; on failure return a failed
result without touching state; otherwise force-close, mark the cycle
COMPLETED, and create the next cycle.  Returns the result status together
with the new state. -/
def settle_cycle (w : SettlementWorld) : String × SettlementWorld :=
  let cycle_day := get_current_cycle_day w.cycle.days_elapsed
  if ¬ validate_cycle cycle_day w.positions.length w.cycle.status then ("failed", w)
  else
    let closed := force_close_all_positions w.positions
    let new_cycle : SCycle :=
      { cycle_id := "cycle_" ++ toString (w.other_cycles.length + 1),
        status := "ACTIVE", days_elapsed := 0, total_invested := 0,
        total_pnl := 0, total_return := 0, win_rate := 0 }
    ("success",
     { cycle := { w.cycle with status := "COMPLETED" },
       positions := closed,
       other_cycles := w.other_cycles ++ [new_cycle] })

/-! ## Cycle table operations (`src/core/cycle_manager.py`) -/

/-- The columns of a `Cycle` row consulted by `create_new_cycle` and
`get_active_cycle`: `id` is the integer primary key, `start_date`,
`end_date` and `created_at` are timestamps (days / ticks). -/
structure MCycle where
  id : ℕ
  cycle_id : String
  status : String
  start_date : ℤ
  end_date : ℤ
  created_at : ℕ
  deriving DecidableEq, Repr

/-- The cycle id string derived from the start timestamp
(`f"cycle_{start_date.strftime('%Y%m%d_%H%M%S')}"`). -/
def cycle_id_of (start_date : ℤ) : String :=
  "cycle_" ++ toString start_date

/-- `CycleManager.create_new_cycle`: an end date 30 days after the start
(`CYCLE_DURATION_DAYS = 30`); if a cycle with the derived id already exists
the table is untouched, otherwise a new ACTIVE cycle row is inserted.  No
existing ACTIVE cycle is deactivated. -/
def create_new_cycle (cycles : List MCycle) (start_date : ℤ)
    (new_pk : ℕ) (now_tick : ℕ) : List MCycle :=
  let cid := cycle_id_of start_date
  if cycles.any (fun c => c.cycle_id == cid) then cycles
  else cycles ++ [{ id := new_pk, cycle_id := cid, status := "ACTIVE",
                    start_date := start_date, end_date := start_date + 30,
                    created_at := now_tick }]

/-- The `status == 'ACTIVE' and end_date > now` predicate used by
`get_active_cycle`. -/
def is_active_nonexpired (now : ℤ) (c : MCycle) : Bool :=
  c.status = "ACTIVE" && decide (now < c.end_date)

/-- The ACTIVE, non-expired cycles of the table. -/
def active_cycles (cycles : List MCycle) (now : ℤ) : List MCycle :=
  cycles.filter (is_active_nonexpired now)

/-- `ORDER BY created_at DESC ... first()`: the row with the greatest
`created_at` (ties resolved to the earlier row, as the database may). -/
def pick_latest : List MCycle → Option MCycle
  | [] => none
  | c :: rest =>
      match pick_latest rest with
      | none => some c
      | some b => if b.created_at > c.created_at then some b else some c

/-- `CycleManager.get_active_cycle`: select the most recent ACTIVE
non-expired cycle; every other ACTIVE non-expired cycle (`id !=
active_cycle.id`) is set to CANCELLED.  Returns the selected cycle and the
updated table. -/
def get_active_cycle (cycles : List MCycle) (now : ℤ) :
    Option MCycle × List MCycle :=
  match pick_latest (active_cycles cycles now) with
  | none => (none, cycles)
  | some a =>
      (some a,
       cycles.map (fun c =>
         if is_active_nonexpired now c && decide (c.id ≠ a.id) then
           { c with status := "CANCELLED" }
         else c))

/-! ## Theorems -/

/-- C1: for every active cycle and elapsed-day count the phase is a pure
function of the 1-indexed cycle day (`get_cycle_phase` factors through
`get_current_cycle_day`), and the day-to-phase table maps days 1–7 to LOAD,
8–60 to ACTIVE, 61–75 to SCALE_OUT, and 76 and later to FORCE_CLOSE. -/
theorem cycle_phase_is_table_of_cycle_day (days_elapsed cycle_day : ℤ) :
    get_cycle_phase days_elapsed = phase_of_cycle_day (get_current_cycle_day days_elapsed)
    ∧ (1 ≤ cycle_day → cycle_day ≤ 7 → phase_of_cycle_day cycle_day = .LOAD)
    ∧ (8 ≤ cycle_day → cycle_day ≤ 60 → phase_of_cycle_day cycle_day = .ACTIVE)
    ∧ (61 ≤ cycle_day → cycle_day ≤ 75 → phase_of_cycle_day cycle_day = .SCALE_OUT)
    ∧ (76 ≤ cycle_day → phase_of_cycle_day cycle_day = .FORCE_CLOSE) := by
  refine ⟨rfl, ?_, ?_, ?_, ?_⟩
  · intro h1 h2
    unfold phase_of_cycle_day
    rw [if_pos (by omega)]
  · intro h1 h2
    unfold phase_of_cycle_day
    rw [if_neg (by omega), if_pos (by omega)]
  · intro h1 h2
    unfold phase_of_cycle_day
    rw [if_neg (by omega), if_neg (by omega), if_pos (by omega)]
  · intro h1
    unfold phase_of_cycle_day
    rw [if_neg (by omega), if_neg (by omega), if_neg (by omega)]

/-- Witness for C1: the table evaluated at one day of each phase. -/
theorem cycle_phase_is_table_of_cycle_day_witness :
    get_cycle_phase 0 = phase_of_cycle_day (get_current_cycle_day 0)
    ∧ phase_of_cycle_day 5 = .LOAD
    ∧ phase_of_cycle_day 30 = .ACTIVE
    ∧ phase_of_cycle_day 70 = .SCALE_OUT
    ∧ phase_of_cycle_day 80 = .FORCE_CLOSE :=
  ⟨(cycle_phase_is_table_of_cycle_day 0 5).1,
   (cycle_phase_is_table_of_cycle_day 0 5).2.1 (by decide) (by decide),
   (cycle_phase_is_table_of_cycle_day 0 30).2.2.1 (by decide) (by decide),
   (cycle_phase_is_table_of_cycle_day 0 70).2.2.2.1 (by decide) (by decide),
   (cycle_phase_is_table_of_cycle_day 0 80).2.2.2.2 (by decide)⟩

/-- C5: for every total score in [0, 1] the conviction tier is S at 0.80 and
above, A at 0.65, B at 0.50, C at 0.35, and REJECT below 0.35. -/
theorem assign_tier_table (s : ℚ) (h0 : 0 ≤ s) (_h1 : s ≤ 1) :
    (80/100 ≤ s → assign_tier s = "S")
    ∧ (65/100 ≤ s → s < 80/100 → assign_tier s = "A")
    ∧ (50/100 ≤ s → s < 65/100 → assign_tier s = "B")
    ∧ (35/100 ≤ s → s < 50/100 → assign_tier s = "C")
    ∧ (s < 35/100 → assign_tier s = "REJECT") := by
  refine ⟨?_, ?_, ?_, ?_, ?_⟩ <;> intro ha <;> unfold assign_tier
  · rw [if_pos (by linarith)]
  · intro hb
    rw [if_neg (by linarith), if_pos (by linarith)]
  · intro hb
    rw [if_neg (by linarith), if_neg (by linarith), if_pos (by linarith)]
  · intro hb
    rw [if_neg (by linarith), if_neg (by linarith), if_neg (by linarith),
      if_pos (by linarith)]
  · rw [if_neg (by linarith), if_neg (by linarith), if_neg (by linarith),
      if_neg (by linarith), if_pos (by linarith)]

/-- Witness for C5: one score in each tier band. -/
theorem assign_tier_table_witness :
    assign_tier (90/100) = "S"
    ∧ assign_tier (70/100) = "A"
    ∧ assign_tier (55/100) = "B"
    ∧ assign_tier (40/100) = "C"
    ∧ assign_tier (10/100) = "REJECT" :=
  ⟨(assign_tier_table (90/100) (by norm_num) (by norm_num)).1 (by norm_num),
   (assign_tier_table (70/100) (by norm_num) (by norm_num)).2.1 (by norm_num) (by norm_num),
   (assign_tier_table (55/100) (by norm_num) (by norm_num)).2.2.1 (by norm_num) (by norm_num),
   (assign_tier_table (40/100) (by norm_num) (by norm_num)).2.2.2.1 (by norm_num) (by norm_num),
   (assign_tier_table (10/100) (by norm_num) (by norm_num)).2.2.2.2 (by norm_num)⟩

/-- Counterexample for C2: a signal with exactly one concurrent ACTIVE signal
on its (symbol, direction) receives consensus factor 0.2, not the claimed
0.3 — the scoring task overrides the scorer's `_score_consensus` output with
`SignalQualityFilter.calculate_consensus_score`, whose else-branch maps a
cluster count of 1 to 0.2. -/
theorem consensus_count_one_is_not_03 :
    effective_consensus_score 1 = 2/10 ∧ (2/10 : ℚ) ≠ 3/10 := by
  constructor
  · rfl
  · norm_num

/-- C2 amended: the consensus factor persisted by the scoring task is
determined solely by the count of concurrent ACTIVE signals on the same
(symbol, direction): 5 or more yields 1.0, 3 or 4 yields 0.8, 2 yields 0.5,
and both 1 and 0 yield 0.2. -/
theorem effective_consensus_table (n : ℕ) :
    (5 ≤ n → effective_consensus_score n = 1)
    ∧ (n = 3 ∨ n = 4 → effective_consensus_score n = 8/10)
    ∧ (n = 2 → effective_consensus_score n = 5/10)
    ∧ (n = 1 → effective_consensus_score n = 2/10)
    ∧ (n = 0 → effective_consensus_score n = 2/10) := by
  unfold effective_consensus_score calculate_consensus_score
  refine ⟨?_, ?_, ?_, ?_, ?_⟩ <;> intro h <;> split_ifs <;> first | rfl | omega

/-- Witness for C2 amended: the table evaluated at each count. -/
theorem effective_consensus_table_witness :
    effective_consensus_score 6 = 1
    ∧ effective_consensus_score 3 = 8/10
    ∧ effective_consensus_score 4 = 8/10
    ∧ effective_consensus_score 2 = 5/10
    ∧ effective_consensus_score 1 = 2/10
    ∧ effective_consensus_score 0 = 2/10 :=
  ⟨(effective_consensus_table 6).1 (by omega),
   (effective_consensus_table 3).2.1 (Or.inl rfl),
   (effective_consensus_table 4).2.1 (Or.inr rfl),
   (effective_consensus_table 2).2.2.1 rfl,
   (effective_consensus_table 1).2.2.2.1 rfl,
   (effective_consensus_table 0).2.2.2.2 rfl⟩

/-- Counterexample for C3: `_record_violation` applies only the 0.30 floor,
never the 1.50 ceiling.  At power 1.0 a violation carrying penalty +0.6
yields 1.6, which differs from `clamp(1·(1+0.6), 0.30, 1.50) = 1.5` and
exceeds 1.50. -/
theorem record_violation_power_no_ceiling :
    record_violation_power 1 (6/10) = 8/5
    ∧ clamp (1 * (1 + 6/10)) (30/100) (150/100) = 3/2
    ∧ record_violation_power 1 (6/10) ≠ clamp (1 * (1 + 6/10)) (30/100) (150/100)
    ∧ record_violation_power 1 (6/10) > 150/100 := by
  refine ⟨?_, ?_, ?_, ?_⟩ <;>
    simp [record_violation_power, clamp, max_def, min_def] <;> norm_num

/-- C3 amended: a violation updates power to `max(0.30, w·(1+p))` — the 0.30
floor always holds, and for every nonpositive penalty applied to a power in
[0, 1.50] the update agrees with the specified `clamp(w·(1+p), 0.30, 1.50)`
and stays at most 1.50; restoration after clean cycles never pushes power
above 1.0 (nor above its current value when that already exceeds 1.0). -/
theorem allocation_power_bounds (w p : ℚ) (c t : ℕ)
    (hp : p ≤ 0) (hw0 : 0 ≤ w) (hw : w ≤ 150/100) :
    30/100 ≤ record_violation_power w p
    ∧ record_violation_power w p = clamp (w * (1 + p)) (30/100) (150/100)
    ∧ record_violation_power w p ≤ 150/100
    ∧ restore_allocation_power w c t ≤ max 1 w := by
  have hx : w * (1 + p) ≤ 150/100 := by
    calc w * (1 + p) ≤ w * 1 := by
          apply mul_le_mul_of_nonneg_left (by linarith) hw0
      _ = w := mul_one w
      _ ≤ 150/100 := hw
  refine ⟨le_max_left _ _, ?_, ?_, ?_⟩
  · unfold record_violation_power clamp
    rw [min_eq_right (max_le (by norm_num) hx)]
  · unfold record_violation_power
    exact max_le (by norm_num) hx
  · unfold restore_allocation_power
    split_ifs
    · exact le_max_left _ _
    · exact le_trans (min_le_left _ _) (le_max_left _ _)
    · exact le_max_right _ _

/-- Witness for C3 amended: power 1.0, penalty −0.1, 3 clean rounds out of
10. -/
theorem allocation_power_bounds_witness :
    30/100 ≤ record_violation_power 1 (-1/10)
    ∧ record_violation_power 1 (-1/10) = clamp (1 * (1 + -1/10)) (30/100) (150/100)
    ∧ record_violation_power 1 (-1/10) ≤ 150/100
    ∧ restore_allocation_power 1 3 10 ≤ max 1 1 :=
  allocation_power_bounds 1 (-1/10) 3 10 (by norm_num) (by norm_num) (by norm_num)

/-- Counterexample for C4: a record whose `transaction_value` is 0 — which is
below 10,000 — passes the whole quality filter: Python's truthiness test
`if signal_data.get('transaction_value'):` skips the value check for a zero
(or missing) value, so not every record with `transaction_value < 10000` is
rejected. -/
theorem zero_transaction_value_passes_filter :
    (0 : ℚ) < 10000
    ∧ apply_quality_filters false true
        { source := "congressional", symbol := "AAPL", filer_name := "Jane Doe",
          price := some 150, transaction_value := some 0,
          filing_days_old := some 5, transaction_code := none } = (true, none) := by
  refine ⟨by norm_num, ?_⟩
  decide

/-- C4 amended: if the `transaction_value` is present, nonzero and below
10,000 the quality filter rejects the record (returns a failing verdict with
a rejection reason), and a value of exactly 10,000.00 is accepted by that
check — the filter never reports `TRANSACTION_TOO_SMALL` for it.  A missing
or zero value bypasses the value check entirely. -/
theorem transaction_value_gate :
    (∀ (s : SignalData) (mde mp : Bool) (v : ℚ),
      s.transaction_value = some v → v ≠ 0 → v < 10000 →
      (apply_quality_filters mde mp s).1 = false
      ∧ (apply_quality_filters mde mp s).2 ≠ none)
    ∧ (∀ (s : SignalData) (mde mp : Bool),
      s.transaction_value = some 10000 →
      (apply_quality_filters mde mp s).2 ≠ some "TRANSACTION_TOO_SMALL") := by
  constructor
  · intro s mde mp v hv hnz hlt
    have htv : transaction_value_rejects s.transaction_value = true := by
      rw [hv]
      show (if v = 0 then false else decide (v < 10000)) = true
      rw [if_neg hnz]
      exact decide_eq_true hlt
    unfold apply_quality_filters
    rcases hp : price_rejects s.price
    · rw [if_neg (by simp [hp]), if_pos (by simp [htv])]
      exact ⟨rfl, by simp⟩
    · rw [if_pos (by simp)]
      exact ⟨rfl, by simp⟩
  · intro s mde mp hv
    have htv : transaction_value_rejects s.transaction_value = false := by
      rw [hv]
      unfold transaction_value_rejects
      norm_num
    unfold apply_quality_filters
    split_ifs <;> simp_all

/-- Witness for C4 amended: a 9,999.99 record is rejected and a 10,000.00
record does not trip the value check. -/
theorem transaction_value_gate_witness :
    ((apply_quality_filters false true
        { source := "congressional", symbol := "AAPL", filer_name := "Jane Doe",
          price := some 150, transaction_value := some (999999/100),
          filing_days_old := some 5, transaction_code := none }).1 = false
      ∧ (apply_quality_filters false true
        { source := "congressional", symbol := "AAPL", filer_name := "Jane Doe",
          price := some 150, transaction_value := some (999999/100),
          filing_days_old := some 5, transaction_code := none }).2 ≠ none)
    ∧ (apply_quality_filters false true
        { source := "congressional", symbol := "AAPL", filer_name := "Jane Doe",
          price := some 150, transaction_value := some 10000,
          filing_days_old := some 5, transaction_code := none }).2
        ≠ some "TRANSACTION_TOO_SMALL" :=
  ⟨transaction_value_gate.1 _ false true (999999/100) rfl (by norm_num) (by norm_num),
   transaction_value_gate.2 _ false true rfl⟩

/-- C6: for a connected paper broker, a BUY order is rejected exactly when
the fill price times the quantity plus the 1.00 commission strictly exceeds
the available cash (equality is accepted), and a rejected BUY leaves the
broker state — cash, positions, order log, everything — unchanged. -/
theorem buy_rejected_iff (s : BrokerState) (order : OrderRequest) (bid ask : ℚ)
    (sim : Bool) (bps : ℚ) (hc : s.connected = true) (hside : order.side = .BUY) :
    ((submit_order s order bid ask sim bps).1.status = .REJECTED
      ↔ buy_fill_price ask sim bps * (order.quantity : ℚ) + 1 > s.cash)
    ∧ (buy_fill_price ask sim bps * (order.quantity : ℚ) + 1 > s.cash →
      (submit_order s order bid ask sim bps).2 = s) := by
  unfold submit_order
  rw [hside]
  simp only [hc, not_true, if_false]
  split_ifs with h
  · exact ⟨iff_of_true rfl h, fun _ => rfl⟩
  · exact ⟨iff_of_false id h, fun hgt => absurd hgt h⟩

/-- Witness for C6: a broker with 10.00 cash rejects a 1-share BUY at ask
100.00 without touching state. -/
theorem buy_rejected_iff_witness :
    (((submit_order ⟨100000, 10, [], [], true⟩ ⟨"AAPL", .BUY, 1⟩ 100 100 false 5).1.status
        = .REJECTED
      ↔ buy_fill_price 100 false 5 * ((1 : ℤ) : ℚ) + 1 > (10 : ℚ))
      ∧ (buy_fill_price 100 false 5 * ((1 : ℤ) : ℚ) + 1 > (10 : ℚ) →
        (submit_order ⟨100000, 10, [], [], true⟩ ⟨"AAPL", .BUY, 1⟩ 100 100 false 5).2
          = ⟨100000, 10, [], [], true⟩)) :=
  buy_rejected_iff ⟨100000, 10, [], [], true⟩ ⟨"AAPL", .BUY, 1⟩ 100 100 false 5 rfl rfl

/-- After removing the full quantity of the unique position for a symbol, no
entry for that symbol remains. -/
theorem mem_remove_from_position_ne (positions : List BrokerPosition)
    (symbol : String) (q : ℤ) (pos : BrokerPosition)
    (huniq : ∀ p ∈ positions, p.symbol = symbol → p = pos)
    (hq : pos.quantity = q) :
    ∀ x ∈ remove_from_position positions symbol q, x.symbol ≠ symbol := by
  intro x hx
  unfold remove_from_position at hx
  rw [List.mem_filterMap] at hx
  obtain ⟨p, hp, hstep⟩ := hx
  by_cases hsym : p.symbol = symbol
  · have hpp : p = pos := huniq p hp hsym
    subst hpp
    rw [if_pos hsym] at hstep
    simp only [hq, sub_self, if_pos] at hstep
    exact Option.noConfusion hstep
  · rw [if_neg hsym] at hstep
    cases hstep
    exact hsym

/-- Lookup form of `mem_remove_from_position_ne`. -/
theorem find_remove_from_position_eq_none (positions : List BrokerPosition)
    (symbol : String) (q : ℤ) (pos : BrokerPosition)
    (huniq : ∀ p ∈ positions, p.symbol = symbol → p = pos)
    (hq : pos.quantity = q) :
    (remove_from_position positions symbol q).find?
      (fun p => decide (p.symbol = symbol)) = none := by
  rw [List.find?_eq_none]
  intro x hx
  simp only [decide_eq_true_eq]
  exact mem_remove_from_position_ne positions symbol q pos huniq hq x hx

/-- C10: selling the entire quantity of a symbol's (unique) position fills,
removes the symbol from the broker's position map so that
`get_position` returns nothing, and every further SELL on that symbol is
rejected without touching state. -/
theorem sell_full_position_clears (s : BrokerState) (order : OrderRequest)
    (bid ask : ℚ) (sim : Bool) (bps : ℚ) (pos : BrokerPosition)
    (hc : s.connected = true) (hside : order.side = .SELL)
    (hfind : get_position s order.symbol = some pos)
    (huniq : ∀ p ∈ s.positions, p.symbol = order.symbol → p = pos)
    (hq : pos.quantity = order.quantity) :
    (submit_order s order bid ask sim bps).1.status = .FILLED
    ∧ get_position (submit_order s order bid ask sim bps).2 order.symbol = none
    ∧ ∀ (order2 : OrderRequest) (bid2 ask2 : ℚ) (sim2 : Bool) (bps2 : ℚ),
        order2.side = .SELL → order2.symbol = order.symbol →
        (submit_order (submit_order s order bid ask sim bps).2
            order2 bid2 ask2 sim2 bps2).1.status = .REJECTED
        ∧ (submit_order (submit_order s order bid ask sim bps).2
            order2 bid2 ask2 sim2 bps2).2 = (submit_order s order bid ask sim bps).2 := by
  have hfind' : s.positions.find? (fun p => decide (p.symbol = order.symbol)) = some pos :=
    hfind
  have hnone : (remove_from_position s.positions order.symbol order.quantity).find?
      (fun p => decide (p.symbol = order.symbol)) = none :=
    find_remove_from_position_eq_none s.positions order.symbol order.quantity pos huniq hq
  unfold submit_order
  rw [hside]
  simp only [hc, not_true, if_false]
  rw [hfind']
  simp only []
  rw [if_neg (by rw [hq]; exact lt_irrefl _)]
  refine ⟨rfl, hnone, ?_⟩
  intro order2 bid2 ask2 sim2 bps2 hside2 hsym2
  rw [hside2]
  simp only [hc, not_true, if_false]
  rw [hsym2, hnone]
  exact ⟨rfl, rfl⟩

/-- Witness for C10: selling all 5 AAPL shares removes the position and a
later 1-share SELL is rejected. -/
theorem sell_full_position_clears_witness :
    (submit_order ⟨100000, 1000, [⟨"AAPL", 5, 100, 100, 500, 0⟩], [], true⟩
        ⟨"AAPL", .SELL, 5⟩ 100 100 false 5).1.status = .FILLED
    ∧ get_position (submit_order ⟨100000, 1000, [⟨"AAPL", 5, 100, 100, 500, 0⟩], [], true⟩
        ⟨"AAPL", .SELL, 5⟩ 100 100 false 5).2 "AAPL" = none
    ∧ ((submit_order (submit_order ⟨100000, 1000, [⟨"AAPL", 5, 100, 100, 500, 0⟩], [], true⟩
          ⟨"AAPL", .SELL, 5⟩ 100 100 false 5).2 ⟨"AAPL", .SELL, 1⟩ 90 90 false 5).1.status
        = .REJECTED
      ∧ (submit_order (submit_order ⟨100000, 1000, [⟨"AAPL", 5, 100, 100, 500, 0⟩], [], true⟩
          ⟨"AAPL", .SELL, 5⟩ 100 100 false 5).2 ⟨"AAPL", .SELL, 1⟩ 90 90 false 5).2
        = (submit_order ⟨100000, 1000, [⟨"AAPL", 5, 100, 100, 500, 0⟩], [], true⟩
          ⟨"AAPL", .SELL, 5⟩ 100 100 false 5).2) := by
  have h := sell_full_position_clears
    ⟨100000, 1000, [⟨"AAPL", 5, 100, 100, 500, 0⟩], [], true⟩
    ⟨"AAPL", .SELL, 5⟩ 100 100 false 5 ⟨"AAPL", 5, 100, 100, 500, 0⟩
    rfl rfl (by decide) (by decide) rfl
  exact ⟨h.1, h.2.1, h.2.2 ⟨"AAPL", .SELL, 1⟩ 90 90 false 5 rfl rfl⟩

/-- Every escalation candidate produced by `check_tier_escalation` records
exactly the computed tier difference and persistence count, and both meet
their thresholds. -/
theorem check_tier_escalation_some (pos : RPosition) (sig : RSignal)
    (e : EscalationInfo) (h : check_tier_escalation pos sig = some e) :
    e.tier_difference
        = tier_value sig.conviction_tier - tier_value pos.conviction_tier
    ∧ e.persisted_cycles = sig.persisted_cycles.getD 0
    ∧ e.tier_difference ≥ 2 ∧ e.persisted_cycles ≥ 2 := by
  unfold check_tier_escalation at h
  simp only [] at h
  split_ifs at h with h1 h2
  cases h
  refine ⟨rfl, rfl, ?_, ?_⟩ <;> dsimp only [] <;> omega

/-- C7: the review-cycle escalator only emits close-and-reopen candidates
whose signal tier exceeds the position tier by at least 2 and whose signal
has `persisted_cycles ≥ 2`; a signal with `persisted_cycles = 1` never
produces a candidate, whatever the tier difference. -/
theorem tier_escalation_requires_gate :
    (∀ (pos : RPosition) (sig : RSignal) (e : EscalationInfo),
      check_tier_escalation pos sig = some e →
      tier_value sig.conviction_tier - tier_value pos.conviction_tier ≥ 2
      ∧ sig.persisted_cycles.getD 0 ≥ 2)
    ∧ (∀ (pos : RPosition) (sig : RSignal),
      sig.persisted_cycles = some 1 → check_tier_escalation pos sig = none)
    ∧ (∀ (open_positions : List RPosition)
      (latest_signal : RPosition → Option RSignal) (e : EscalationInfo),
      e ∈ find_tier_escalations open_positions latest_signal →
      e.tier_difference ≥ 2 ∧ e.persisted_cycles ≥ 2) := by
  refine ⟨?_, ?_, ?_⟩
  · intro pos sig e h
    obtain ⟨e1, e2, e3, e4⟩ := check_tier_escalation_some pos sig e h
    exact ⟨by omega, by omega⟩
  · intro pos sig h
    unfold check_tier_escalation
    simp only []
    split_ifs with h1 h2
    · rfl
    · rfl
    · rw [h] at h2
      simp at h2
  · intro open_positions latest_signal e hmem
    unfold find_tier_escalations at hmem
    rw [List.mem_filterMap] at hmem
    obtain ⟨pos, _, hbind⟩ := hmem
    rw [Option.bind_eq_some] at hbind
    obtain ⟨sig, _, hcheck⟩ := hbind
    obtain ⟨_, _, e3, e4⟩ := check_tier_escalation_some pos sig e hcheck
    exact ⟨e3, e4⟩

/-- Witness for C7: a C-tier position against an S-tier signal escalates at
persistence 2 and is blocked at persistence 1. -/
theorem tier_escalation_requires_gate_witness :
    (tier_value "S" - tier_value "C" ≥ 2 ∧ (Option.getD (some 2) 0 : ℕ) ≥ 2)
    ∧ check_tier_escalation ⟨"p1", "AAPL", "LONG", "C", 10, 100⟩
        ⟨"s2", "AAPL", "LONG", "ACTIVE", "S", some 1⟩ = none
    ∧ ((3 : ℤ) ≥ 2 ∧ (2 : ℕ) ≥ 2) :=
  ⟨tier_escalation_requires_gate.1 ⟨"p1", "AAPL", "LONG", "C", 10, 100⟩
      ⟨"s1", "AAPL", "LONG", "ACTIVE", "S", some 2⟩
      ⟨"p1", "AAPL", "LONG", "C", "S", 3, 2, "s1"⟩ (by decide),
   tier_escalation_requires_gate.2.1 ⟨"p1", "AAPL", "LONG", "C", 10, 100⟩
      ⟨"s2", "AAPL", "LONG", "ACTIVE", "S", some 1⟩ rfl,
   tier_escalation_requires_gate.2.2 [⟨"p1", "AAPL", "LONG", "C", 10, 100⟩]
      (fun _ => some ⟨"s1", "AAPL", "LONG", "ACTIVE", "S", some 2⟩)
      ⟨"p1", "AAPL", "LONG", "C", "S", 3, 2, "s1"⟩ (by decide)⟩

/-- C8: settling a cycle whose status is already COMPLETED is a no-op — the
settlement returns a failed result and the cycle, its positions, and every
performance field are left exactly as they were. -/
theorem settle_completed_cycle_noop (w : SettlementWorld)
    (h : w.cycle.status = "COMPLETED") :
    settle_cycle w = ("failed", w) := by
  have hv : validate_cycle (get_current_cycle_day w.cycle.days_elapsed)
      w.positions.length w.cycle.status = false := by
    unfold validate_cycle
    rw [h]
    split_ifs with h1 h2 h3
    · rfl
    · rfl
    · rfl
    · exact absurd (by decide : ("COMPLETED" : String) ≠ "ACTIVE") h3
  unfold settle_cycle
  simp only [hv, Bool.false_eq_true, not_false_eq_true, if_pos]

/-- Witness for C8: a concrete COMPLETED cycle with five positions. -/
theorem settle_completed_cycle_noop_witness :
    settle_cycle
      { cycle := ⟨"c1", "COMPLETED", 40, 1000, 50, 5, 60⟩,
        positions := [⟨"p1", "OPEN", 10, 100, none⟩, ⟨"p2", "CLOSED", 5, 50, some 7⟩,
          ⟨"p3", "OPEN", 3, 20, none⟩, ⟨"p4", "CLOSED", 8, 30, some (-2)⟩,
          ⟨"p5", "OPEN", 1, 10, none⟩],
        other_cycles := [] }
      = ("failed",
        { cycle := ⟨"c1", "COMPLETED", 40, 1000, 50, 5, 60⟩,
          positions := [⟨"p1", "OPEN", 10, 100, none⟩, ⟨"p2", "CLOSED", 5, 50, some 7⟩,
            ⟨"p3", "OPEN", 3, 20, none⟩, ⟨"p4", "CLOSED", 8, 30, some (-2)⟩,
            ⟨"p5", "OPEN", 1, 10, none⟩],
          other_cycles := [] }) :=
  settle_completed_cycle_noop _ rfl

/-- Counterexample for C9: `create_new_cycle` does not deactivate an existing
ACTIVE cycle, so creating a cycle while another is ACTIVE leaves two ACTIVE,
non-expired cycles — the claimed invariant is not preserved by every
cycle-manager operation. -/
theorem create_new_cycle_breaks_single_active :
    (active_cycles [⟨1, "cycle_0", "ACTIVE", 0, 100, 0⟩] 50).length = 1
    ∧ (active_cycles
        (create_new_cycle [⟨1, "cycle_0", "ACTIVE", 0, 100, 0⟩] 50 2 1) 50).length = 2 := by
  constructor
  · decide
  · decide

/-- Helper for C9 amended: if every cycle still active after the repair map
carries the selected id, distinct primary keys force at most one survivor. -/
theorem repaired_filter_length_le_one (now : ℤ) (aid : ℕ) (f : MCycle → MCycle)
    (hf : ∀ c, is_active_nonexpired now (f c) = true → c.id = aid) :
    ∀ l : List MCycle, l.Pairwise (fun x y => x.id ≠ y.id) →
    ((l.map f).filter (is_active_nonexpired now)).length ≤ 1 := by
  intro l hl
  induction l with
  | nil => simp
  | cons c rest ih =>
      rw [List.pairwise_cons] at hl
      obtain ⟨hhead, hrest⟩ := hl
      simp only [List.map_cons, List.filter_cons]
      by_cases hc : is_active_nonexpired now (f c) = true
      · rw [if_pos hc]
        have hnil : (rest.map f).filter (is_active_nonexpired now) = [] := by
          rw [List.filter_eq_nil_iff]
          intro y hy
          rw [List.mem_map] at hy
          obtain ⟨x, hx, rfl⟩ := hy
          intro hpass
          exact hhead x hx (by rw [hf x hpass, hf c hc])
        rw [hnil]
        simp
      · rw [if_neg hc]
        exact ih hrest

/-- C9 amended: `get_active_cycle` restores the invariant — after it runs,
CANCELLING every other ACTIVE non-expired cycle but the most recently
created, at most one ACTIVE non-expired cycle remains (primary keys being
unique). -/
theorem get_active_cycle_restores_single_active (cycles : List MCycle) (now : ℤ)
    (huniq : cycles.Pairwise (fun x y => x.id ≠ y.id)) :
    (active_cycles (get_active_cycle cycles now).2 now).length ≤ 1 := by
  unfold get_active_cycle
  cases hpick : pick_latest (active_cycles cycles now) with
  | none =>
      have hempty : active_cycles cycles now = [] := by
        cases hl : active_cycles cycles now with
        | nil => rfl
        | cons c rest =>
            rw [hl] at hpick
            unfold pick_latest at hpick
            cases hpl : pick_latest rest with
            | none =>
                rw [hpl] at hpick
                exact Option.noConfusion hpick
            | some b =>
                rw [hpl] at hpick
                simp only [] at hpick
                split_ifs at hpick
      simp only []
      unfold active_cycles at hempty ⊢
      rw [hempty]
      simp
  | some a =>
      simp only []
      unfold active_cycles
      apply repaired_filter_length_le_one now a.id _ _ cycles huniq
      intro c h
      by_cases hcond :
          (is_active_nonexpired now c && decide (c.id ≠ a.id)) = true
      · rw [if_pos hcond] at h
        simp [is_active_nonexpired] at h
      · rw [if_neg hcond] at h
        simp only [h, Bool.true_and] at hcond
        simpa using hcond

/-- Witness for C9 amended: two concurrently ACTIVE cycles collapse to at
most one after `get_active_cycle`. -/
theorem get_active_cycle_restores_single_active_witness :
    (active_cycles
      (get_active_cycle
        [⟨1, "cycle_0", "ACTIVE", 0, 100, 0⟩, ⟨2, "cycle_50", "ACTIVE", 50, 80, 1⟩]
        50).2 50).length ≤ 1 :=
  get_active_cycle_restores_single_active
    [⟨1, "cycle_0", "ACTIVE", 0, 100, 0⟩, ⟨2, "cycle_50", "ACTIVE", 50, 80, 1⟩]
    50 (by decide)

end DojoAllocator
